import Mathlib

/-!
Verification of the texture-format registry in
`projects/Rubbish Rush Engine/src/Graphics/TextureEnums.h`.

The header defines closed enumerations mirroring OpenGL texture constants
and five constexpr derivation functions over them.  We embed the three
enumerations the derivation functions touch as closed inductive types
(one constructor per C++ enumerator, in source order) and each function as
a Lean function whose case analysis mirrors the C++ switch statement arm
for arm.  The `LOG_ASSERT` / `LOG_WARN` calls in the default arms are pure
diagnostics (the functions still return the value on the following line),
so the embedding keeps only the returned values.

C++ types: `size_t` is embedded as `Nat`, the `GLint` return of
`GetTexelComponentCount` and the `int` channel-count parameter as `Int`.
In `GetTexelSize` the C++ multiplication `size_t * GLint` converts the
`GLint` operand to `size_t`; since the count is a compile-time constant in
`{0,1,2,3,4}` this conversion is `Int.toNat`.
-/

namespace TextureEnums

/-- The sized internal storage formats, from `ENUM(InternalFormat, GLint, ...)`.
Constructors follow the C++ enumerator names and order. -/
inductive InternalFormat
  | Unknown
  | Depth
  | DepthStencil
  | R8
  | R16
  | RG8
  | RGB8
  | SRGB
  | RGB10
  | RGB16
  | RGB32F
  | RGBA8
  | SRGBA
  | RGBA16
  | RGB32AF
  deriving DecidableEq

/-- The layout of input pixel data, from `ENUM(PixelFormat, GLint, ...)`.
Constructors follow the C++ enumerator names and order. -/
inductive PixelFormat
  | Unknown
  | Red
  | RG
  | RGB
  | SRGB
  | BGR
  | RGBA
  | BGRA
  | Depth
  | DepthStencil
  deriving DecidableEq

/-- The type of each component of the pixel data, from `ENUM(PixelType, GLint, ...)`.
Constructors follow the C++ enumerator names and order. -/
inductive PixelType
  | UByte
  | Byte
  | UShort
  | Short
  | UInt
  | Int
  | Float
  deriving DecidableEq

/-- Embedding of `constexpr size_t GetTexelComponentSize(PixelType type)`.
The C++ switch handles UByte/Byte (1), UShort/Short (2), Int/UInt (4); every
other value, including the defined enumerator `Float`, reaches the default
arm, which logs an assertion failure and returns 0. -/
def GetTexelComponentSize (type : PixelType) : Nat :=
  match type with
  | PixelType.UByte | PixelType.Byte => 1
  | PixelType.UShort | PixelType.Short => 2
  | PixelType.Int | PixelType.UInt => 4
  | _ => 0

/-- Embedding of `constexpr InternalFormat GetInternalFormatForChannels8(int numChannels)`.
The switch on the integer channel count maps 1, 2, 3, 4 to the 8-bit
formats; the default arm logs a warning and returns `Unknown`. -/
def GetInternalFormatForChannels8 (numChannels : Int) : InternalFormat :=
  if numChannels = 1 then InternalFormat.R8
  else if numChannels = 2 then InternalFormat.RG8
  else if numChannels = 3 then InternalFormat.RGB8
  else if numChannels = 4 then InternalFormat.RGBA8
  else InternalFormat.Unknown

/-- Embedding of `constexpr PixelFormat GetPixelFormatForChannels(int numChannels)`.
The switch on the integer channel count maps 1, 2, 3, 4 to Red, RG, RGB,
RGBA; the default arm logs a warning and returns `Unknown`. -/
def GetPixelFormatForChannels (numChannels : Int) : PixelFormat :=
  if numChannels = 1 then PixelFormat.Red
  else if numChannels = 2 then PixelFormat.RG
  else if numChannels = 3 then PixelFormat.RGB
  else if numChannels = 4 then PixelFormat.RGBA
  else PixelFormat.Unknown

/-- Embedding of `constexpr GLint GetTexelComponentCount(PixelFormat format)`.
The C++ switch handles Depth/DepthStencil/Red (1), RG (2), RGB/BGR (3),
RGBA/BGRA (4); every other value, including the defined enumerator `SRGB`,
reaches the default arm, which logs an assertion failure and returns 0. -/
def GetTexelComponentCount (format : PixelFormat) : Int :=
  match format with
  | PixelFormat.Depth | PixelFormat.DepthStencil | PixelFormat.Red => 1
  | PixelFormat.RG => 2
  | PixelFormat.RGB | PixelFormat.BGR => 3
  | PixelFormat.RGBA | PixelFormat.BGRA => 4
  | _ => 0

/-- Embedding of `constexpr size_t GetTexelSize(PixelFormat format, PixelType type)`,
which returns `GetTexelComponentSize(type) * GetTexelComponentCount(format)`.
The `GLint` factor is converted to `size_t` by the C++ usual arithmetic
conversions; it is always in `{0,1,2,3,4}`, so the conversion is `Int.toNat`. -/
def GetTexelSize (format : PixelFormat) (type : PixelType) : Nat :=
  GetTexelComponentSize type * (GetTexelComponentCount format).toNat

/-- Claim C1 (code evaluation at the failing input): `GetTexelComponentSize`
returns 1, 1, 2, 2, 4, 4 for UByte, Byte, UShort, Short, UInt, Int, but its
switch omits the defined enumerator `Float`, which therefore falls into the
default arm (whose assertion message reads "Unknown type") and yields 0,
not the 4 the claim and the spec state. -/
theorem getTexelComponentSize_float_is_zero :
    GetTexelComponentSize PixelType.UByte = 1 ∧
    GetTexelComponentSize PixelType.Byte = 1 ∧
    GetTexelComponentSize PixelType.UShort = 2 ∧
    GetTexelComponentSize PixelType.Short = 2 ∧
    GetTexelComponentSize PixelType.UInt = 4 ∧
    GetTexelComponentSize PixelType.Int = 4 ∧
    GetTexelComponentSize PixelType.Float = 0 := by
  decide

/-- Claim C2 counterexample: `SRGB` is one of the nine defined `PixelFormat`
values other than `Unknown`, yet `GetTexelComponentCount` sends it to the
default arm and returns 0, which is no component count at all (the claim's
possible outputs are 1 through 4). -/
theorem getTexelComponentCount_srgb_not_a_count :
    ¬ (1 ≤ GetTexelComponentCount PixelFormat.SRGB ∧
       GetTexelComponentCount PixelFormat.SRGB ≤ 4) := by
  decide

/-- Claim C2 (amended): for the eight defined `PixelFormat` values handled by
the switch, `GetTexelComponentCount` returns the component count: 1 for Red,
Depth and DepthStencil, 2 for RG, 3 for RGB and BGR, 4 for RGBA and BGRA;
the remaining defined value `SRGB` falls through to the default arm and
returns 0. -/
theorem getTexelComponentCount_defined_values :
    GetTexelComponentCount PixelFormat.Red = 1 ∧
    GetTexelComponentCount PixelFormat.Depth = 1 ∧
    GetTexelComponentCount PixelFormat.DepthStencil = 1 ∧
    GetTexelComponentCount PixelFormat.RG = 2 ∧
    GetTexelComponentCount PixelFormat.RGB = 3 ∧
    GetTexelComponentCount PixelFormat.BGR = 3 ∧
    GetTexelComponentCount PixelFormat.RGBA = 4 ∧
    GetTexelComponentCount PixelFormat.BGRA = 4 ∧
    GetTexelComponentCount PixelFormat.SRGB = 0 := by
  decide

/-- Claim C3 (code evaluation, including the failing input): of the three
example evaluations of `GetTexelSize`, the RGBA/UByte and Red/UShort ones
hold, but `GetTexelSize(RGB, Float)` is 0, not 12, because
`GetTexelComponentSize` returns 0 for `Float` (the missing switch case of
claim C1). -/
theorem getTexelSize_examples :
    GetTexelSize PixelFormat.RGBA PixelType.UByte = 4 ∧
    GetTexelSize PixelFormat.RGB PixelType.Float = 0 ∧
    GetTexelSize PixelFormat.Red PixelType.UShort = 2 := by
  decide

/-- Claim C4: for channel counts 1, 2, 3 and 4, `GetInternalFormatForChannels8`
returns R8, RG8, RGB8 and RGBA8 respectively, and `GetPixelFormatForChannels`
returns Red, RG, RGB and RGBA respectively. -/
theorem formats_for_channels_1_to_4 :
    GetInternalFormatForChannels8 1 = InternalFormat.R8 ∧
    GetInternalFormatForChannels8 2 = InternalFormat.RG8 ∧
    GetInternalFormatForChannels8 3 = InternalFormat.RGB8 ∧
    GetInternalFormatForChannels8 4 = InternalFormat.RGBA8 ∧
    GetPixelFormatForChannels 1 = PixelFormat.Red ∧
    GetPixelFormatForChannels 2 = PixelFormat.RG ∧
    GetPixelFormatForChannels 3 = PixelFormat.RGB ∧
    GetPixelFormatForChannels 4 = PixelFormat.RGBA := by
  decide

/-- Claim C5: for every integer channel count outside the range 1 to 4
(including 0, 5 and -1), both `GetInternalFormatForChannels8` and
`GetPixelFormatForChannels` return their `Unknown` value; the default arm
only logs a warning, so no crash occurs. -/
theorem channels_out_of_range_unknown (n : Int) (h : ¬ (1 ≤ n ∧ n ≤ 4)) :
    GetInternalFormatForChannels8 n = InternalFormat.Unknown ∧
    GetPixelFormatForChannels n = PixelFormat.Unknown := by
  unfold GetInternalFormatForChannels8 GetPixelFormatForChannels
  split_ifs with h1 h2 h3 h4 <;> first
    | exact absurd h (by omega)
    | exact ⟨rfl, rfl⟩

/-- Witness for claim C5 at the concrete channel count 5. -/
theorem channels_out_of_range_unknown_witness :
    ¬ (1 ≤ (5 : Int) ∧ (5 : Int) ≤ 4) ∧
    (GetInternalFormatForChannels8 5 = InternalFormat.Unknown ∧
     GetPixelFormatForChannels 5 = PixelFormat.Unknown) :=
  ⟨by decide, channels_out_of_range_unknown 5 (by decide)⟩

/-- Claim C6: for every `PixelFormat` and every `PixelType`, `GetTexelSize` is
exactly the product of `GetTexelComponentSize` of the type and
`GetTexelComponentCount` of the format, with no validation of its own. -/
theorem getTexelSize_eq_product (format : PixelFormat) (type : PixelType) :
    (GetTexelSize format type : Int) =
      (GetTexelComponentSize type : Int) * GetTexelComponentCount format := by
  cases format <;> cases type <;> decide

/-- Claim C7: each of the five derivation functions is deterministic: two
calls with identical inputs yield identical outputs, for every input in the
argument type. -/
theorem derivation_functions_deterministic
    (t t' : PixelType) (n n' m m' : Int) (f f' : PixelFormat)
    (ht : t = t') (hn : n = n') (hm : m = m') (hf : f = f') :
    GetTexelComponentSize t = GetTexelComponentSize t' ∧
    GetInternalFormatForChannels8 n = GetInternalFormatForChannels8 n' ∧
    GetPixelFormatForChannels m = GetPixelFormatForChannels m' ∧
    GetTexelComponentCount f = GetTexelComponentCount f' ∧
    GetTexelSize f t = GetTexelSize f' t' := by
  subst ht
  subst hn
  subst hm
  subst hf
  exact ⟨rfl, rfl, rfl, rfl, rfl⟩

/-- Witness for claim C7 at concrete inputs. -/
theorem derivation_functions_deterministic_witness :
    GetTexelComponentSize PixelType.Short = GetTexelComponentSize PixelType.Short ∧
    GetInternalFormatForChannels8 2 = GetInternalFormatForChannels8 2 ∧
    GetPixelFormatForChannels 3 = GetPixelFormatForChannels 3 ∧
    GetTexelComponentCount PixelFormat.BGR = GetTexelComponentCount PixelFormat.BGR ∧
    GetTexelSize PixelFormat.BGR PixelType.Short = GetTexelSize PixelFormat.BGR PixelType.Short :=
  derivation_functions_deterministic PixelType.Short PixelType.Short 2 2 3 3
    PixelFormat.BGR PixelFormat.BGR rfl rfl rfl rfl

/-- Claim C8: for every channel count n in the range 1 to 4,
`GetTexelComponentCount` applied to `GetPixelFormatForChannels` of n gives
back n. -/
theorem componentCount_roundtrip (n : Int) (h1 : 1 ≤ n) (h2 : n ≤ 4) :
    GetTexelComponentCount (GetPixelFormatForChannels n) = n := by
  interval_cases n <;> decide

/-- Witness for claim C8 at the concrete channel count 3. -/
theorem componentCount_roundtrip_witness :
    1 ≤ (3 : Int) ∧ (3 : Int) ≤ 4 ∧
    GetTexelComponentCount (GetPixelFormatForChannels 3) = 3 :=
  ⟨by decide, by decide, componentCount_roundtrip 3 (by decide) (by decide)⟩

/-- Claim C9: for every integer n, `GetInternalFormatForChannels8 n` is
`Unknown` exactly when n lies outside 1 to 4, and likewise for
`GetPixelFormatForChannels`; hence the two functions agree for every n on
whether n is a supported channel count. -/
theorem unknown_iff_unsupported (n : Int) :
    (GetInternalFormatForChannels8 n = InternalFormat.Unknown ↔
      ¬ (1 ≤ n ∧ n ≤ 4)) ∧
    (GetPixelFormatForChannels n = PixelFormat.Unknown ↔
      ¬ (1 ≤ n ∧ n ≤ 4)) := by
  unfold GetInternalFormatForChannels8 GetPixelFormatForChannels
  split_ifs with h1 h2 h3 h4
  · subst h1; decide
  · subst h2; decide
  · subst h3; decide
  · subst h4; decide
  · exact ⟨⟨fun _ => by omega, fun _ => rfl⟩, ⟨fun _ => by omega, fun _ => rfl⟩⟩

/-- Claim C10: for every `PixelFormat` value and every `PixelType` value,
including the values that fall into the default switch arms (`Unknown`,
`SRGB`, `Float`, which yield a 0 factor, exactly as any out-of-set integer
stored in the enum would), `GetTexelSize` is at most 16; it is a `Nat`, so
it is also at least 0. -/
theorem getTexelSize_le_16 (format : PixelFormat) (type : PixelType) :
    GetTexelSize format type ≤ 16 := by
  cases format <;> cases type <;> decide

end TextureEnums
